import Mathlib

/-!
# MeshLab plugins `filter_embree` and `filter_openvdb`

A shallow embedding of the two filter plugins
(`src/meshlabplugins/filter_embree/filter_embree.cpp` and
`src/meshlabplugins/filter_openvdb/filter_openvdb.cpp`).

The plugins are orchestration code: they look parameters up in a
`RichParameterList` and call external collaborators (the Embree adaptor, the
OpenVDB adapter, the vcg mesh utilities, the progress callback).  Every call of
a collaborator is recorded as an event, in program order, so that a function of
the plugin becomes a pure function returning the sequence of calls it made
together with its result (a value, or the exception it threw).
-/

namespace MeshLab

/-! ## Scalars and parameter lists -/

/-- The mesh scalar type `Scalarm` (a binary floating point type).  Finite values
are represented by the rational they denote; the three special values are kept
apart.  Only comparisons are used by the plugins, and those are exact. -/
inductive Scalarm where
  | nan
  | negInf
  | posInf
  | fin (q : Rat)
  deriving DecidableEq

/-- The comparison `a <= b` of two scalars: false whenever a NaN is involved. -/
def Scalarm.le : Scalarm → Scalarm → Bool
  | .nan, _ => false
  | _, .nan => false
  | .negInf, _ => true
  | _, .posInf => true
  | .posInf, _ => false
  | _, .negInf => false
  | .fin a, .fin b => decide (a ≤ b)

/-- The literal `0.1f`: the single precision number nearest to one tenth,
which is 13421773 / 2^27. -/
def Scalarm.lit0_1f : Scalarm := .fin (mkRat 13421773 134217728)

/-- A point with three scalar coordinates (`Point3f`, `Point3m`). -/
structure Point3m where
  x : Scalarm
  y : Scalarm
  z : Scalarm
  deriving DecidableEq

/-- The value carried by a rich parameter, by kind of parameter:
`RichBool`, `RichInt`, `RichFloat`, `RichPosition`, and `RichPercentage`
(a value with its lower and upper limit). -/
inductive Value where
  | bool (b : Bool)
  | int (i : Int)
  | float (f : Scalarm)
  | point3 (p : Point3m)
  | absPerc (f : Scalarm) (min : Scalarm) (max : Scalarm)
  deriving DecidableEq

/-- A rich parameter: name, default value, the text shown in the dialog and the
long help text. -/
structure RichParameter where
  name : String
  value : Value
  fieldDescription : String
  tooltip : String
  deriving DecidableEq

def RichInt (name : String) (v : Int) (desc tip : String) : RichParameter :=
  ⟨name, .int v, desc, tip⟩

def RichBool (name : String) (v : Bool) (desc tip : String) : RichParameter :=
  ⟨name, .bool v, desc, tip⟩

def RichFloat (name : String) (v : Scalarm) (desc tip : String) : RichParameter :=
  ⟨name, .float v, desc, tip⟩

def RichPosition (name : String) (v : Point3m) (desc tip : String) : RichParameter :=
  ⟨name, .point3 v, desc, tip⟩

def RichPercentage (name : String) (v min max : Scalarm) (desc tip : String) :
    RichParameter :=
  ⟨name, .absPerc v min max, desc, tip⟩

/-- The exceptions of the plugins.  `noParameter` and `wrongValueType` come from
the lookups of a parameter list, `wrongActionCalled` from the default branch of
`applyFilter`, `message` is an `MLException` thrown with the given text. -/
inductive MLException where
  | noParameter (name : String)
  | wrongValueType (name : String)
  | wrongActionCalled
  | message (text : String)
  deriving DecidableEq

deriving instance DecidableEq for Except

/-- Modelled from the spec: the class `RichParameterList` is declared outside
`src/`.  It is the ordered list of the parameters a filter declares
(`addParam` appends), and a lookup by name fails when the list has no parameter
of that name (the "missing parameter" failure) or the parameter found has
another kind of value. -/
abbrev RichParameterList := List RichParameter

namespace RichParameterList

def addParam (l : RichParameterList) (p : RichParameter) : RichParameterList :=
  l ++ [p]

/-- The names of the parameters of the list, in order. -/
def names (l : RichParameterList) : List String :=
  l.map (fun p => p.name)

def getParameterByName (l : RichParameterList) (name : String) :
    Except MLException RichParameter :=
  match l.find? (fun p => p.name == name) with
  | some p => .ok p
  | none => .error (.noParameter name)

def getBool (l : RichParameterList) (name : String) : Except MLException Bool :=
  match getParameterByName l name with
  | .error e => .error e
  | .ok p =>
    match p.value with
    | .bool b => .ok b
    | _ => .error (.wrongValueType name)

def getInt (l : RichParameterList) (name : String) : Except MLException Int :=
  match getParameterByName l name with
  | .error e => .error e
  | .ok p =>
    match p.value with
    | .int i => .ok i
    | _ => .error (.wrongValueType name)

def getFloat (l : RichParameterList) (name : String) : Except MLException Scalarm :=
  match getParameterByName l name with
  | .error e => .error e
  | .ok p =>
    match p.value with
    | .float f => .ok f
    | _ => .error (.wrongValueType name)

def getPoint3m (l : RichParameterList) (name : String) : Except MLException Point3m :=
  match getParameterByName l name with
  | .error e => .error e
  | .ok p =>
    match p.value with
    | .point3 v => .ok v
    | _ => .error (.wrongValueType name)

def getAbsPerc (l : RichParameterList) (name : String) : Except MLException Scalarm :=
  match getParameterByName l name with
  | .error e => .error e
  | .ok p =>
    match p.value with
    | .absPerc f _ _ => .ok f
    | _ => .error (.wrongValueType name)

end RichParameterList

/-! ## C++ `switch` statements -/

/-- One section of the body of a `switch`: the labels in front of it (`none` is
`default`), its statements as a state transformer, and whether it ends in
`break`. -/
structure SwitchSection (ι σ : Type) where
  labels : List (Option ι)
  body : σ → σ
  breaks : Bool

/-- Runs the sections from the first one on, until one ends in `break`:
a section without `break` falls through into the next one. -/
def runSections {ι σ : Type} : List (SwitchSection ι σ) → σ → σ
  | [], s => s
  | sec :: rest, s => if sec.breaks then sec.body s else runSections rest (sec.body s)

/-- Jumps to the section labelled with the value, or to `default` when no label
has the value, and runs from there. -/
def runSwitch {ι σ : Type} [DecidableEq ι] (secs : List (SwitchSection ι σ)) (v : ι)
    (s : σ) : σ :=
  match secs.dropWhile (fun sec => !(sec.labels.contains (some v))) with
  | sec :: rest => runSections (sec :: rest) s
  | [] => runSections (secs.dropWhile (fun sec => !(sec.labels.contains none))) s

/-- The state of `initParameterList` while it runs: the list built so far, and
whether an `assert(0)` has been reached. -/
structure InitState where
  parlst : RichParameterList
  assertReached : Bool
  deriving DecidableEq

def InitState.addParam (s : InitState) (p : RichParameter) : InitState :=
  { s with parlst := s.parlst.addParam p }

/-- The statement `assert(0)`. -/
def InitState.assert0 (s : InitState) : InitState :=
  { s with assertReached := true }

/-! ## filter_embree -/

namespace FilterEmbreePlugin

/-- The filter ids of the plugin (its `typeList`); `unknown` stands for every
other id, the one the `default` branches are for. -/
inductive ActionIDType where
  | FP_OBSCURANCE
  | FP_AMBIENT_OCCLUSION
  | FP_SDF
  | FP_SELECT_VISIBLE_FACES
  | FP_ANALYZE_NORMALS
  | unknown
  deriving DecidableEq

open ActionIDType

def typeList : List ActionIDType :=
  [FP_OBSCURANCE, FP_AMBIENT_OCCLUSION, FP_SDF, FP_SELECT_VISIBLE_FACES, FP_ANALYZE_NORMALS]

def filterInfo (filterId : ActionIDType) : String :=
  match filterId with
  | FP_OBSCURANCE =>
    "Compute Obscurance (embree); requires the number of rays used to calculate the obscurance and a tau value used. The Obscurance value is saved into face quality and mapped into a gray shade."
  | FP_AMBIENT_OCCLUSION =>
    "Compute Ambient occlusion (embree):  requires the number of rays used to calculate the occlusion; The ambient occlusion value is saved into face quality and mapped into a gray shade. "
  | FP_SDF =>
    "Compute Shape-Diameter Function (embree):  requires the number of rays used to calculate the SDF; The SDF value is saved into face quality and mapped into a color ramp. "
  | FP_SELECT_VISIBLE_FACES =>
    "Compute visible face select (embree): given the number of rays and a point3f direction, computes a simple shadow; Shadow value is saved into face quality and mapped into a gray shade. "
  | FP_ANALYZE_NORMALS =>
    "Compute Face Normal Analysis (embree): given a mesh this filter analyzes the mesh and corrects the normals pointing inwards"
  | unknown => "Unknown Filter"

def raysParam : RichParameter :=
  RichInt "Rays" 64 "Number of rays" "The number of rays shoot from the barycenter of the face."

def parallelizeParam : RichParameter :=
  RichBool "Parallelize" true "Parallelize"
    "If toggled openMP threads are used to speedup the process, the threads used are 4."

/-- The body of the `switch` of `initParameterList`. -/
def initSections : List (SwitchSection ActionIDType InitState) :=
  [ { labels := [some FP_OBSCURANCE],
      body := fun s =>
        ((s.addParam raysParam).addParam parallelizeParam).addParam
          (RichFloat "TAU" Scalarm.lit0_1f "Tau value" "The value to control spatial decay"),
      breaks := true },
    { labels := [some FP_AMBIENT_OCCLUSION],
      body := fun s => (s.addParam raysParam).addParam parallelizeParam,
      breaks := true },
    { labels := [some FP_SDF],
      body := fun s =>
        ((s.addParam raysParam).addParam parallelizeParam).addParam
          (RichFloat "degree" Scalarm.lit0_1f "Degree "
            "The value for the angle of the cone for which we consider a point as a valid direction"),
      breaks := true },
    { labels := [some FP_SELECT_VISIBLE_FACES],
      body := fun s =>
        (s.addParam raysParam).addParam
          (RichPosition "dir" ⟨.fin 1, .fin 0, .fin 0⟩ "Direction"
            "This values indicates the direction of the shadows"),
      breaks := true },
    { labels := [some FP_ANALYZE_NORMALS],
      body := fun s => (s.addParam raysParam).addParam parallelizeParam,
      breaks := true },
    { labels := [none],
      body := fun s => s.assert0,
      breaks := false } ]

/-- `FilterEmbreePlugin::initParameterList`: the state at the `return`. -/
def initParameterListRun (action : ActionIDType) : InitState :=
  runSwitch initSections action ⟨[], false⟩

/-- `FilterEmbreePlugin::initParameterList`: the list it returns. -/
def initParameterList (action : ActionIDType) : RichParameterList :=
  (initParameterListRun action).parlst

/-- The Embree adaptor object, as far as the plugin determines it: the number of
threads it was constructed with (the mesh is always the current mesh). -/
structure EmbreeAdaptor where
  nOfthreads : Nat
  deriving DecidableEq

/-- The calls `applyFilter` can make to its collaborators.  An engine call
records the adaptor object it is executed on and the arguments it is given;
`progress` is a call of the progress callback `cb` the function is handed. -/
inductive Event where
  | newEmbreeAdaptor (nOfthreads : Nat)
  | computeObscurance (adaptor : EmbreeAdaptor) (nRay : Int) (tau : Scalarm)
  | computeAmbientOcclusion (adaptor : EmbreeAdaptor) (nRay : Int)
  | computeSDF (adaptor : EmbreeAdaptor) (nRay : Int) (degree : Scalarm)
  | selectVisibleFaces (adaptor : EmbreeAdaptor) (direction : Point3m)
  | computeNormalAnalysis (adaptor : EmbreeAdaptor) (nRay : Int)
  | vertexFromFace
  | perVertexQualityGray
  | progress (pos : Int) (label : String)
  deriving DecidableEq

/-- The mode an engine call belongs to; `none` for the other calls. -/
def Event.mode? : Event → Option ActionIDType
  | .computeObscurance _ _ _ => some FP_OBSCURANCE
  | .computeAmbientOcclusion _ _ => some FP_AMBIENT_OCCLUSION
  | .computeSDF _ _ _ => some FP_SDF
  | .selectVisibleFaces _ _ => some FP_SELECT_VISIBLE_FACES
  | .computeNormalAnalysis _ _ => some FP_ANALYZE_NORMALS
  | _ => none

/-- Whether the call is one of the five engine calls. -/
def Event.isEngineCall (e : Event) : Bool :=
  e.mode?.isSome

/-- The adaptor object an engine call is executed on. -/
def Event.adaptor? : Event → Option EmbreeAdaptor
  | .computeObscurance a _ _ => some a
  | .computeAmbientOcclusion a _ => some a
  | .computeSDF a _ _ => some a
  | .selectVisibleFaces a _ => some a
  | .computeNormalAnalysis a _ => some a
  | _ => none

/-- The ray count an engine call is given, when it is given one. -/
def Event.nRay? : Event → Option Int
  | .computeObscurance _ n _ => some n
  | .computeAmbientOcclusion _ n => some n
  | .computeSDF _ n _ => some n
  | .computeNormalAnalysis _ n => some n
  | _ => none

/-- Whether the call constructs an Embree adaptor (builds the geometry index). -/
def Event.isConstruction : Event → Bool
  | .newEmbreeAdaptor _ => true
  | _ => false

/-- Whether the call writes to the mesh: the engine calls, the propagation of
the face quality to the vertices, and the colour mapping. -/
def Event.writesMesh : Event → Bool
  | .vertexFromFace => true
  | .perVertexQualityGray => true
  | e => e.isEngineCall

/-- What an invocation did: the calls it made, in order, and how it ended. -/
structure Outcome where
  trace : List Event
  result : Except MLException Unit
  deriving DecidableEq

/-- The statements of one mode, after the adaptor has been set up: the lookups
of the arguments, the engine call and what follows it.  (The order in which the
arguments of one call are looked up is unspecified in C++; it only decides which
of two missing parameters is reported.) -/
def runMode (action : ActionIDType) (parameters : RichParameterList)
    (adaptor : EmbreeAdaptor) (done : List Event) : Outcome :=
  match action with
  | FP_OBSCURANCE =>
    match parameters.getInt "Rays", parameters.getFloat "TAU" with
    | .ok rays, .ok tau =>
      ⟨done ++ [.computeObscurance adaptor rays tau, .vertexFromFace, .perVertexQualityGray],
        .ok ()⟩
    | .error e, _ => ⟨done, .error e⟩
    | _, .error e => ⟨done, .error e⟩
  | FP_AMBIENT_OCCLUSION =>
    match parameters.getInt "Rays" with
    | .ok rays =>
      ⟨done ++ [.computeAmbientOcclusion adaptor rays, .vertexFromFace, .perVertexQualityGray],
        .ok ()⟩
    | .error e => ⟨done, .error e⟩
  | FP_SDF =>
    match parameters.getInt "Rays", parameters.getFloat "degree" with
    | .ok rays, .ok degree =>
      ⟨done ++ [.computeSDF adaptor rays degree, .vertexFromFace, .perVertexQualityGray],
        .ok ()⟩
    | .error e, _ => ⟨done, .error e⟩
    | _, .error e => ⟨done, .error e⟩
  | FP_SELECT_VISIBLE_FACES =>
    match parameters.getPoint3m "dir" with
    | .ok dir =>
      ⟨done ++ [.selectVisibleFaces adaptor dir, .vertexFromFace, .perVertexQualityGray],
        .ok ()⟩
    | .error e => ⟨done, .error e⟩
  | FP_ANALYZE_NORMALS =>
    match parameters.getInt "Rays" with
    | .ok rays => ⟨done ++ [.computeNormalAnalysis adaptor rays], .ok ()⟩
    | .error e => ⟨done, .error e⟩
  | unknown => ⟨done, .error .wrongActionCalled⟩

/-- `FilterEmbreePlugin::applyFilter` on the current mesh of the document. -/
def applyFilter (action : ActionIDType) (parameters : RichParameterList) : Outcome :=
  -- EmbreeAdaptor<CMeshO> adaptor = EmbreeAdaptor<CMeshO>(m->cm,1);
  let adaptor : EmbreeAdaptor := ⟨1⟩
  let done : List Event := [.newEmbreeAdaptor 1]
  match parameters.getBool "Parallelize" with
  | .error e => ⟨done, .error e⟩
  | .ok true =>
    -- adaptor = EmbreeAdaptor<CMeshO>(m->cm,4);
    runMode action parameters ⟨4⟩ (done ++ [.newEmbreeAdaptor 4])
  | .ok false => runMode action parameters adaptor done

end FilterEmbreePlugin

/-! ## filter_openvdb -/

namespace FilterOpenVDBPlugin

/-- The filter ids of the plugin (its `typeList`); `unknown` stands for every
other id, the one the `default` branches are for. -/
inductive ActionIDType where
  | FP_OPENVDB_VOLUME
  | FP_OPENVDB_LEVELSET
  | unknown
  deriving DecidableEq

open ActionIDType

def typeList : List ActionIDType :=
  [FP_OPENVDB_VOLUME, FP_OPENVDB_LEVELSET]

def filterInfo (filterId : ActionIDType) : String :=
  match filterId with
  | FP_OPENVDB_VOLUME =>
    "Remesh the current mesh using the function meshToVolume in the OpenVDB library. First converts the current mesh to a volumetric distance field representation, then discretizes the isosurface at a given isovalue into a triangle mesh."
  | FP_OPENVDB_LEVELSET =>
    "Remesh the current mesh using the function meshToLevelSet in the OpenVDB library. First converts the current mesh to a volumetric distance field representation, then discretizes the isosurface at a given isovalue into a triangle mesh."
  | unknown => "Unknown Filter"

/-- The parameter "voxelSize"; its default is `m.cm.bbox.Diag()/100.0f`.  `fdiv`
is the division of the scalar type, a floating point division whose rounding
depends on the precision the scalar type is built with; it is a parameter. -/
def voxelSizeParam (fdiv : Scalarm → Scalarm → Scalarm) (diag : Scalarm) : RichParameter :=
  RichPercentage "voxelSize" (fdiv diag (.fin 100)) (.fin 0) diag "Voxel Size"
    "Size of the voxels in the grid used to represent the distance field."

def isovalueParam (diag : Scalarm) : RichParameter :=
  RichPercentage "isovalue" (.fin 0) (.fin 0) diag "Isovalue"
    "Determines the isosurface used to recompute the mesh discretization."

def adaptivityParam (diag : Scalarm) : RichParameter :=
  RichPercentage "adaptivity" (.fin 0) (.fin 0) diag "Adaptivity"
    "The adaptivity threshold determines how closely\nthe isosurface is matched by the resulting mesh.\nHigher thresholds will allow more variation in\npolygon size, using fewer polygons to express the surface."

/-- The body of the `switch` of `initParameterList`; `diag` is `m.cm.bbox.Diag()`
and `fdiv` the division of the scalar type.
The section of `FP_OPENVDB_VOLUME` has no `break`. -/
def initSections (fdiv : Scalarm → Scalarm → Scalarm) (diag : Scalarm) :
    List (SwitchSection ActionIDType InitState) :=
  [ { labels := [some FP_OPENVDB_LEVELSET],
      body := fun s =>
        ((s.addParam (voxelSizeParam fdiv diag)).addParam (isovalueParam diag)).addParam
          (adaptivityParam diag),
      breaks := true },
    { labels := [some FP_OPENVDB_VOLUME],
      body := fun s =>
        (s.addParam (voxelSizeParam fdiv diag)).addParam (isovalueParam diag),
      breaks := false },
    { labels := [none],
      body := fun s => s.assert0,
      breaks := false } ]

/-- `FilterOpenVDBPlugin::initParameterList`: the state at the `return`. -/
def initParameterListRun (action : ActionIDType) (fdiv : Scalarm → Scalarm → Scalarm)
    (diag : Scalarm) : InitState :=
  runSwitch (initSections fdiv diag) action ⟨[], false⟩

/-- `FilterOpenVDBPlugin::initParameterList`: the list it returns. -/
def initParameterList (action : ActionIDType) (fdiv : Scalarm → Scalarm → Scalarm)
    (diag : Scalarm) : RichParameterList :=
  (initParameterListRun action fdiv diag).parlst

/-- A mesh of the document, as far as the plugin determines it: its label. -/
structure MeshModel where
  label : String
  deriving DecidableEq

/-- The mesh document: its meshes, in the order they were added, and the
position of the current one.  A mesh is referred to by its position. -/
structure MeshDocument where
  meshList : List MeshModel
  currentMesh : Nat
  deriving DecidableEq

/-- `MeshDocument::addNewMesh`: the document with the new mesh appended, and the
position of the new mesh. -/
def MeshDocument.addNewMesh (md : MeshDocument) (_fullPath : String) (label : String)
    (setAsCurrent : Bool) : MeshDocument × Nat :=
  ({ meshList := md.meshList ++ [⟨label⟩],
     currentMesh := if setAsCurrent then md.meshList.length else md.currentMesh },
   md.meshList.length)

/-- The calls `remesh` makes to its collaborators. -/
inductive Event where
  | log (format : String)
  | cb (pos : Int) (label : String)
  | removeUnreferencedVertex (mesh : Nat)
  | compactEveryVector (mesh : Nat)
  | updateBoundingBox (mesh : Nat)
  | setVoxelSize (v : Scalarm)
  | setIsovalue (v : Scalarm)
  | setAdaptivity (v : Scalarm)
  | setMesh (mesh : Nat)
  | meshToLevelSet
  | meshToVolume
  | addNewMesh (fullPath : String) (label : String) (setAsCurrent : Bool)
  | volumeToMesh (mesh : Nat)
  | perVertexNormalizedPerFace (mesh : Nat)
  deriving DecidableEq

/-- Whether the call is a call of the OpenVDB adapter or adds a mesh to the
document (and not a progress report, a log line or a mesh utility). -/
def Event.isAdapterOrDocumentCall : Event → Bool
  | .setVoxelSize _ => true
  | .setIsovalue _ => true
  | .setAdaptivity _ => true
  | .setMesh _ => true
  | .meshToLevelSet => true
  | .meshToVolume => true
  | .addNewMesh _ _ _ => true
  | .volumeToMesh _ => true
  | _ => false

/-- What an invocation did: the calls it made, in order, the document it left,
and how it ended. -/
structure Outcome (α : Type) where
  trace : List Event
  md : MeshDocument
  result : Except MLException α
  deriving DecidableEq

/-- `FilterOpenVDBPlugin::remesh`; `epsilon` is
`std::numeric_limits<Scalarm>::epsilon()`.  The calls of the collaborators are
taken not to fail. -/
def remesh (epsilon : Scalarm) (md : MeshDocument) (voxelSize isovalue adaptivity : Scalarm)
    (isLevelSet : Bool) : Outcome Bool :=
  -- Check that the voxel size is a number greater than 0
  if voxelSize.le epsilon then
    ⟨[], md, .error (.message "Voxel size must be a number greater than 0.")⟩
  else
    let m := md.currentMesh
    let added := md.addNewMesh "" "Offset mesh" true
    let m2 := added.2
    ⟨[ .log " Input mesh %8i v %8i f\n",
       .cb 0 "Cleaning Mesh...",
       .removeUnreferencedVertex m,
       .compactEveryVector m,
       .updateBoundingBox m,
       .setVoxelSize voxelSize,
       .setIsovalue isovalue,
       .setAdaptivity adaptivity,
       .cb 10 "Loading Mesh...",
       .setMesh m,
       .log "Loaded mesh in %i ms",
       .cb 30 "Converting Mesh to Volume...",
       (if isLevelSet then .meshToLevelSet else .meshToVolume),
       .log "Converted mesh to volume in %i ms",
       .cb 70 "Converting Volume to Mesh...",
       .addNewMesh "" "Offset mesh" true,
       .volumeToMesh m2,
       .log "Converted volume to mesh in %i ms",
       .cb 10 "Done.",
       .log "Output mesh %8i v %8i f\n",
       .updateBoundingBox m2,
       .perVertexNormalizedPerFace m2 ],
      added.1, .ok true⟩

/-- `FilterOpenVDBPlugin::applyFilter`.  The value of `remesh` is dropped, an
exception of `remesh` goes on to the caller.  (The order in which the arguments
of the call are looked up is unspecified in C++; it only decides which of
several missing parameters is reported.) -/
def applyFilter (epsilon : Scalarm) (action : ActionIDType) (parameters : RichParameterList)
    (md : MeshDocument) : Outcome Unit :=
  match action with
  | unknown => ⟨[], md, .error .wrongActionCalled⟩
  | _ =>
    match parameters.getAbsPerc "voxelSize", parameters.getAbsPerc "isovalue",
      (if action = FP_OPENVDB_LEVELSET then parameters.getAbsPerc "adaptivity"
        else .ok (.fin 0)) with
    | .ok voxelSize, .ok isovalue, .ok adaptivity =>
      let r := remesh epsilon md voxelSize isovalue adaptivity
        (decide (action = FP_OPENVDB_LEVELSET))
      ⟨r.trace, r.md, r.result.map (fun _ => ())⟩
    | .error e, _, _ => ⟨[], md, .error e⟩
    | _, .error e, _ => ⟨[], md, .error e⟩
    | _, _, .error e => ⟨[], md, .error e⟩

end FilterOpenVDBPlugin

/-! ## The analysis engine behind the Embree adaptor

The engine the adaptor calls run on (the geometry index, the ray sampler, the
intersection evaluator, the parallel dispatcher) and the vcg functions
`VertexFromFace` and `PerVertexQualityGray` are not part of the sources of the
plugins.  This section models, from the design of the engine, the two parts the
worker count can have an influence on: the dispatch of the faces to the workers
and the propagation of the face field to the vertices. -/

namespace EmbreeEngine

/-- Modelled from the spec: the Parallel Dispatcher (not under `src/`) partitions
the faces into `workerCount` contiguous ranges.  This is the length of a range:
the face count divided by the worker count, rounded up. -/
def chunkSize (faceCount workerCount : Nat) : Nat :=
  (faceCount + workerCount - 1) / workerCount

/-- Modelled from the spec: the contiguous range of face indices of worker `k`
of the Parallel Dispatcher (not under `src/`), first index included and last
index excluded; the ranges of the workers are disjoint slices of the field. -/
def workerRange (faceCount workerCount k : Nat) : Nat × Nat :=
  (min faceCount (k * chunkSize faceCount workerCount),
   min faceCount ((k + 1) * chunkSize faceCount workerCount))

/-- Modelled from the spec: one worker of the Parallel Dispatcher (not under
`src/`) runs `perFaceFn` on every face of its range and writes the value at the
index of the face in the output field. -/
def runWorker {α : Type} (perFaceFn : Nat → α) (range : Nat × Nat) (field : Nat → α) :
    Nat → α :=
  (List.range' range.1 (range.2 - range.1)).foldl
    (fun out i => Function.update out i (perFaceFn i)) field

/-- Modelled from the spec: `run(faces, workerCount, perFaceFn)` of the Parallel
Dispatcher (not under `src/`): every worker runs on its range, and the field is
read after all of them are done (the join).  `field` is the field as it was
allocated before the pass. -/
def run {α : Type} (faceCount workerCount : Nat) (perFaceFn : Nat → α) (field : Nat → α) :
    Nat → α :=
  (List.range workerCount).foldl
    (fun out k => runWorker perFaceFn (workerRange faceCount workerCount k) out) field

/-- Modelled from the spec: the mesh (declared outside `src/`), as far as the
quality fields depend on it: the faces as triples of vertex indices, which
faces are degenerate, and the scalar quality of each face and of each vertex
(reals, here rationals).  Positions and normals only enter through the per-face
function of the analysis. -/
structure Mesh where
  faces : List (Nat × Nat × Nat)
  degenerate : Nat → Bool
  faceQuality : Nat → Rat
  vertexQuality : Nat → Rat

/-- Modelled from the spec: the non-degenerate faces incident to a vertex, for
Field Propagation (not under `src/`). -/
def incidentFaces (m : Mesh) (v : Nat) : List Nat :=
  (List.range m.faces.length).filter (fun i =>
    !(m.degenerate i) &&
      (match m.faces.get? i with
       | some (a, b, c) => a == v || b == v || c == v
       | none => false))

/-- Modelled from the spec: Field Propagation, `propagate(mesh, faceField)`
(`VertexFromFace`, not under `src/`): the value of a vertex is the arithmetic
mean of the field over its non-degenerate incident faces, and the neutral
default 0 when it has none. -/
def propagate (m : Mesh) (faceField : Nat → Rat) : Nat → Rat :=
  fun v =>
    if incidentFaces m v = [] then 0
    else ((incidentFaces m v).map faceField).sum / ((incidentFaces m v).length : Rat)

/-- Modelled from the spec: what an engine call asks of the engine (not under
`src/`): an Analysis Mode with the mode parameters the call carries. -/
inductive Analysis where
  | obscurance (rayCount : Int) (tau : Scalarm)
  | ambientOcclusion (rayCount : Int)
  | sdf (rayCount : Int) (degree : Scalarm)
  | directionalVisibility (direction : Point3m)
  | normalAnalysis (rayCount : Int)

/-- Modelled from the spec: the worker count and the analysis of an engine call
of `applyFilter`; the worker count is the one the adaptor was constructed
with. -/
def request? : FilterEmbreePlugin.Event → Option (Nat × Analysis)
  | .computeObscurance a n tau => some (a.nOfthreads, .obscurance n tau)
  | .computeAmbientOcclusion a n => some (a.nOfthreads, .ambientOcclusion n)
  | .computeSDF a n degree => some (a.nOfthreads, .sdf n degree)
  | .selectVisibleFaces a dir => some (a.nOfthreads, .directionalVisibility dir)
  | .computeNormalAnalysis a n => some (a.nOfthreads, .normalAnalysis n)
  | _ => none

/-- Modelled from the spec: the effect of one call of `applyFilter` on the
quality fields of the mesh (the collaborators are not under `src/`).  An engine
call dispatches the per-face function of its analysis over the faces, with the
worker count of its adaptor, into the face field; `perFaceFn` is the Ray Sampler
followed by the Intersection Evaluator on one face, which is deterministic for
a fixed mesh, analysis and face.  `VertexFromFace` propagates the face field to
the vertices.  The construction of an adaptor and the colour mapping leave the
quality fields as they are. -/
def execute (perFaceFn : Analysis → Nat → Rat) (m : Mesh) (e : FilterEmbreePlugin.Event) :
    Mesh :=
  match request? e with
  | some (workerCount, analysis) =>
    { m with faceQuality := run m.faces.length workerCount (perFaceFn analysis) m.faceQuality }
  | none =>
    match e with
    | .vertexFromFace => { m with vertexQuality := propagate m m.faceQuality }
    | _ => m

/-- Modelled from the spec: the effect of the calls of an invocation, in
order. -/
def executeAll (perFaceFn : Analysis → Nat → Rat) (trace : List FilterEmbreePlugin.Event)
    (m : Mesh) : Mesh :=
  trace.foldl (execute perFaceFn) m

end EmbreeEngine

/-! ## Progress reports and configuration constraints -/

/-- The constraint "positive real" of the specification on a scalar parameter
(tau): a finite number greater than 0. -/
def Scalarm.isPositive : Scalarm → Prop
  | .fin q => 0 < q
  | _ => False

/-- The constraint "cone half-angle in (0, π/2)" of the specification on a
scalar parameter (degree): a finite number in the open interval. -/
def Scalarm.isConeAngle : Scalarm → Prop
  | .fin q => 0 < (q : ℝ) ∧ (q : ℝ) < Real.pi / 2
  | _ => False

/-- The constraint "unit 3-vector" of the specification on a direction: finite
coordinates whose squares sum to 1. -/
def Point3m.isUnit : Point3m → Prop
  | ⟨.fin x, .fin y, .fin z⟩ => x * x + y * y + z * z = 1
  | _ => False

namespace FilterEmbreePlugin

open ActionIDType

/-- Whether the call is a call of the progress callback `cb`. -/
def Event.isProgress : Event → Bool
  | .progress _ _ => true
  | _ => false

/-- The percentage and the label of a call of the progress callback. -/
def Event.progress? : Event → Option (Int × String)
  | .progress pos label => some (pos, label)
  | _ => none

/-- The ConfigurationError of the specification, worded on the parameters an
invocation is given: a non-positive ray count, a non-positive tau (Obscurance
only), a cone angle outside (0, π/2) (SDF only), a zero worker count (the worker
count of an invocation is 4 when "Parallelize" is true and 1 when it is
false). -/
def specConfigurationError (action : ActionIDType) (parameters : RichParameterList) : Prop :=
  (∃ rays, parameters.getInt "Rays" = .ok rays ∧ rays ≤ 0) ∨
  (action = FP_OBSCURANCE ∧
    ∃ tau, parameters.getFloat "TAU" = .ok tau ∧ ¬ tau.isPositive) ∨
  (action = FP_SDF ∧
    ∃ degree, parameters.getFloat "degree" = .ok degree ∧ ¬ degree.isConeAngle) ∨
  (∃ b, parameters.getBool "Parallelize" = .ok b ∧ (if b then 4 else 1) = 0)

end FilterEmbreePlugin

namespace FilterOpenVDBPlugin

/-- The percentage and the label of a call of the progress callback `cb`;
`none` for the other calls. -/
def Event.progress? : Event → Option (Int × String)
  | .cb pos label => some (pos, label)
  | _ => none

end FilterOpenVDBPlugin

/-! ## Theorems about filter_embree -/

namespace FilterEmbreePlugin

open ActionIDType

theorem applyFilter_of_lookup_error (action : ActionIDType) (parameters : RichParameterList)
    (e : MLException) (h : parameters.getBool "Parallelize" = .error e) :
    applyFilter action parameters = ⟨[.newEmbreeAdaptor 1], .error e⟩ := by
  simp [applyFilter, h]

theorem applyFilter_of_parallelize (action : ActionIDType) (parameters : RichParameterList)
    (b : Bool) (h : parameters.getBool "Parallelize" = .ok b) :
    applyFilter action parameters =
      runMode action parameters ⟨if b then 4 else 1⟩
        (.newEmbreeAdaptor 1 :: (if b then [.newEmbreeAdaptor 4] else [])) := by
  cases b <;> simp [applyFilter, h]

/-- The two ways a mode ends: a lookup failed and nothing was called, or the
engine call was made, followed by what the mode does after it. -/
theorem runMode_cases (action : ActionIDType) (parameters : RichParameterList)
    (adaptor : EmbreeAdaptor) (done : List Event) :
    ((runMode action parameters adaptor done).result ≠ .ok () ∧
      (runMode action parameters adaptor done).trace = done) ∨
    ((runMode action parameters adaptor done).result = .ok () ∧
      ∃ call, call.mode? = some action ∧ call.adaptor? = some adaptor ∧
        (runMode action parameters adaptor done).trace =
          done ++ call :: (if action = FP_ANALYZE_NORMALS then []
            else [.vertexFromFace, .perVertexQualityGray])) := by
  cases action <;> simp only [runMode]
  · cases parameters.getInt "Rays" <;> cases parameters.getFloat "TAU" <;>
      simp [Event.mode?, Event.adaptor?]
  · cases parameters.getInt "Rays" <;> simp [Event.mode?, Event.adaptor?]
  · cases parameters.getInt "Rays" <;> cases parameters.getFloat "degree" <;>
      simp [Event.mode?, Event.adaptor?]
  · cases parameters.getPoint3m "dir" <;> simp [Event.mode?, Event.adaptor?]
  · cases parameters.getInt "Rays" <;> simp [Event.mode?, Event.adaptor?]
  · simp

/-- The adaptor constructions come first: after them the trace holds none. -/
theorem constructions_not_writes (b : Bool) :
    (Event.newEmbreeAdaptor 1 :: (if b then [Event.newEmbreeAdaptor 4] else [])).any
      Event.writesMesh = false := by
  cases b <;> rfl

theorem not_engine_of_mem_constructions (b : Bool) (e : Event)
    (h : e ∈ Event.newEmbreeAdaptor 1 :: (if b then [Event.newEmbreeAdaptor 4] else [])) :
    e.isEngineCall = false := by
  cases b <;> simp at h <;> rcases h with rfl | rfl <;> rfl

theorem not_engine_of_mem_tail (action : ActionIDType) (e : Event)
    (h : e ∈ (if action = FP_ANALYZE_NORMALS then []
      else [Event.vertexFromFace, Event.perVertexQualityGray])) :
    e.isEngineCall = false := by
  split at h
  · cases h
  · simp at h; rcases h with rfl | rfl <;> rfl

theorem filter_writes_constructions (b : Bool) :
    (Event.newEmbreeAdaptor 1 :: (if b then [Event.newEmbreeAdaptor 4] else [])).filter
      Event.writesMesh = [] := by
  cases b <;> rfl

theorem filter_writes_tail (action : ActionIDType) :
    (if action = FP_ANALYZE_NORMALS then []
      else [Event.vertexFromFace, Event.perVertexQualityGray]).filter Event.writesMesh =
    (if action = FP_ANALYZE_NORMALS then []
      else [Event.vertexFromFace, Event.perVertexQualityGray]) := by
  split <;> rfl

theorem any_construction_tail (action : ActionIDType) :
    (if action = FP_ANALYZE_NORMALS then []
      else [Event.vertexFromFace, Event.perVertexQualityGray]).any Event.isConstruction
      = false := by
  split <;> rfl

/-- An invocation that ends in an exception has written nothing to the mesh. -/
theorem applyFilter_error_no_write (action : ActionIDType) (parameters : RichParameterList)
    (h : (applyFilter action parameters).result ≠ .ok ()) :
    (applyFilter action parameters).trace.any Event.writesMesh = false := by
  cases hb : parameters.getBool "Parallelize" with
  | error e => rw [applyFilter_of_lookup_error _ _ _ hb]; rfl
  | ok b =>
    rw [applyFilter_of_parallelize _ _ _ hb] at h ⊢
    rcases runMode_cases action parameters ⟨if b then 4 else 1⟩
      (.newEmbreeAdaptor 1 :: (if b then [.newEmbreeAdaptor 4] else [])) with ⟨_, ht⟩ | ⟨hok, _⟩
    · rw [ht]; exact constructions_not_writes b
    · exact absurd hok h

/-- C1, counterexample: with the invalid ray count 0 the ambient occlusion
filter surfaces no error, calls the engine with 0 rays and writes to the mesh. -/
theorem applyFilter_zero_rays_not_rejected :
    RichParameterList.getInt [RichInt "Rays" 0 "Number of rays" "", parallelizeParam] "Rays"
      = .ok 0 ∧
    applyFilter FP_AMBIENT_OCCLUSION
        [RichInt "Rays" 0 "Number of rays" "", parallelizeParam] =
      ⟨[.newEmbreeAdaptor 1, .newEmbreeAdaptor 4, .computeAmbientOcclusion ⟨4⟩ 0,
        .vertexFromFace, .perVertexQualityGray], .ok ()⟩ := by
  decide

/-- C1, amended: `applyFilter` validates none of the values.  For each mode it
returns normally exactly when the parameters the mode looks up are in the list;
and whenever they are, whatever their values, the invocation is the adaptor
constructions followed by the engine call of the mode with the values as they
are and by what the mode does after it, and it returns normally.  When it ends
in an exception (a failed lookup, an unknown id) it has made no engine call and
no write to the mesh. -/
theorem applyFilter_fails_only_on_lookups (parameters : RichParameterList) :
    (∀ action, (applyFilter action parameters).result ≠ .ok () →
      (applyFilter action parameters).trace.any Event.writesMesh = false) ∧
    ((applyFilter FP_OBSCURANCE parameters).result = .ok () ↔
      ∃ b rays tau, parameters.getBool "Parallelize" = .ok b ∧
        parameters.getInt "Rays" = .ok rays ∧ parameters.getFloat "TAU" = .ok tau) ∧
    (∀ b rays tau, parameters.getBool "Parallelize" = .ok b →
      parameters.getInt "Rays" = .ok rays → parameters.getFloat "TAU" = .ok tau →
      applyFilter FP_OBSCURANCE parameters =
        ⟨.newEmbreeAdaptor 1 :: ((if b then [.newEmbreeAdaptor 4] else []) ++
          [.computeObscurance ⟨if b then 4 else 1⟩ rays tau, .vertexFromFace,
            .perVertexQualityGray]), .ok ()⟩) ∧
    ((applyFilter FP_AMBIENT_OCCLUSION parameters).result = .ok () ↔
      ∃ b rays, parameters.getBool "Parallelize" = .ok b ∧
        parameters.getInt "Rays" = .ok rays) ∧
    (∀ b rays, parameters.getBool "Parallelize" = .ok b →
      parameters.getInt "Rays" = .ok rays →
      applyFilter FP_AMBIENT_OCCLUSION parameters =
        ⟨.newEmbreeAdaptor 1 :: ((if b then [.newEmbreeAdaptor 4] else []) ++
          [.computeAmbientOcclusion ⟨if b then 4 else 1⟩ rays, .vertexFromFace,
            .perVertexQualityGray]), .ok ()⟩) ∧
    ((applyFilter FP_SDF parameters).result = .ok () ↔
      ∃ b rays degree, parameters.getBool "Parallelize" = .ok b ∧
        parameters.getInt "Rays" = .ok rays ∧ parameters.getFloat "degree" = .ok degree) ∧
    (∀ b rays degree, parameters.getBool "Parallelize" = .ok b →
      parameters.getInt "Rays" = .ok rays → parameters.getFloat "degree" = .ok degree →
      applyFilter FP_SDF parameters =
        ⟨.newEmbreeAdaptor 1 :: ((if b then [.newEmbreeAdaptor 4] else []) ++
          [.computeSDF ⟨if b then 4 else 1⟩ rays degree, .vertexFromFace,
            .perVertexQualityGray]), .ok ()⟩) ∧
    ((applyFilter FP_SELECT_VISIBLE_FACES parameters).result = .ok () ↔
      ∃ b dir, parameters.getBool "Parallelize" = .ok b ∧
        parameters.getPoint3m "dir" = .ok dir) ∧
    (∀ b dir, parameters.getBool "Parallelize" = .ok b →
      parameters.getPoint3m "dir" = .ok dir →
      applyFilter FP_SELECT_VISIBLE_FACES parameters =
        ⟨.newEmbreeAdaptor 1 :: ((if b then [.newEmbreeAdaptor 4] else []) ++
          [.selectVisibleFaces ⟨if b then 4 else 1⟩ dir, .vertexFromFace,
            .perVertexQualityGray]), .ok ()⟩) ∧
    ((applyFilter FP_ANALYZE_NORMALS parameters).result = .ok () ↔
      ∃ b rays, parameters.getBool "Parallelize" = .ok b ∧
        parameters.getInt "Rays" = .ok rays) ∧
    (∀ b rays, parameters.getBool "Parallelize" = .ok b →
      parameters.getInt "Rays" = .ok rays →
      applyFilter FP_ANALYZE_NORMALS parameters =
        ⟨.newEmbreeAdaptor 1 :: ((if b then [.newEmbreeAdaptor 4] else []) ++
          [.computeNormalAnalysis ⟨if b then 4 else 1⟩ rays]), .ok ()⟩) := by
  refine ⟨fun action h => applyFilter_error_no_write action parameters h,
    ?_, ?_, ?_, ?_, ?_, ?_, ?_, ?_, ?_, ?_⟩
  all_goals
    cases hb : parameters.getBool "Parallelize" with
    | error e => simp [applyFilter_of_lookup_error _ _ _ hb]
    | ok b =>
      simp only [applyFilter_of_parallelize _ _ _ hb, runMode]
      cases parameters.getInt "Rays" <;> cases parameters.getFloat "TAU" <;>
        cases parameters.getFloat "degree" <;> cases parameters.getPoint3m "dir" <;> simp

/-- C1, the amended claim at two lists.  With the ray count 0 and no
"Parallelize" the lookup fails, and nothing has been written to the mesh.
With the invalid values Rays = 0 and TAU = 0 and all the parameters of the
obscurance mode in the list, the invocation returns normally after the engine
call with these values. -/
theorem applyFilter_fails_only_on_lookups_witness :
    (applyFilter FP_AMBIENT_OCCLUSION [RichInt "Rays" 0 "Number of rays" ""]).result ≠ .ok () ∧
    (applyFilter FP_AMBIENT_OCCLUSION [RichInt "Rays" 0 "Number of rays" ""]).trace.any
      Event.writesMesh = false ∧
    RichParameterList.getBool
      [RichInt "Rays" 0 "Number of rays" "", RichBool "Parallelize" false "Parallelize" "",
        RichFloat "TAU" (.fin 0) "Tau value" ""] "Parallelize" = .ok false ∧
    RichParameterList.getInt
      [RichInt "Rays" 0 "Number of rays" "", RichBool "Parallelize" false "Parallelize" "",
        RichFloat "TAU" (.fin 0) "Tau value" ""] "Rays" = .ok 0 ∧
    RichParameterList.getFloat
      [RichInt "Rays" 0 "Number of rays" "", RichBool "Parallelize" false "Parallelize" "",
        RichFloat "TAU" (.fin 0) "Tau value" ""] "TAU" = .ok (.fin 0) ∧
    applyFilter FP_OBSCURANCE
      [RichInt "Rays" 0 "Number of rays" "", RichBool "Parallelize" false "Parallelize" "",
        RichFloat "TAU" (.fin 0) "Tau value" ""] =
      ⟨.newEmbreeAdaptor 1 :: ((if false then [.newEmbreeAdaptor 4] else []) ++
        [.computeObscurance ⟨if false then 4 else 1⟩ 0 (.fin 0), .vertexFromFace,
          .perVertexQualityGray]), .ok ()⟩ :=
  ⟨by decide,
    (applyFilter_fails_only_on_lookups [RichInt "Rays" 0 "Number of rays" ""]).1
      FP_AMBIENT_OCCLUSION (by decide),
    by decide, by decide, by decide,
    (applyFilter_fails_only_on_lookups
      [RichInt "Rays" 0 "Number of rays" "", RichBool "Parallelize" false "Parallelize" "",
        RichFloat "TAU" (.fin 0) "Tau value" ""]).2.2.1 false 0 (.fin 0)
      (by decide) (by decide) (by decide)⟩

/-- C2, the failing input: the list `initParameterList` returns for
`FP_SELECT_VISIBLE_FACES` has no "Parallelize", which `applyFilter` looks up
before the mode switch, so `applyFilter` run on that list fails on the missing
parameter before any engine call; the lists of the four other ids have all the
parameters their modes look up. -/
theorem applyFilter_select_visible_faces_missing_parallelize :
    (initParameterList FP_SELECT_VISIBLE_FACES).names = ["Rays", "dir"] ∧
    applyFilter FP_SELECT_VISIBLE_FACES (initParameterList FP_SELECT_VISIBLE_FACES) =
      ⟨[.newEmbreeAdaptor 1], .error (.noParameter "Parallelize")⟩ ∧
    (∀ action ∈ [FP_OBSCURANCE, FP_AMBIENT_OCCLUSION, FP_SDF, FP_ANALYZE_NORMALS],
      (applyFilter action (initParameterList action)).result = .ok ()) := by
  decide

/-- C3: every engine call of an invocation is executed on an adaptor that was
constructed with 4 workers when "Parallelize" is true and with 1 worker when it
is false. -/
theorem applyFilter_worker_count (action : ActionIDType) (parameters : RichParameterList)
    (call : Event) (hmem : call ∈ (applyFilter action parameters).trace)
    (hcall : call.isEngineCall = true) :
    (parameters.getBool "Parallelize" = .ok true ∧ call.adaptor? = some ⟨4⟩) ∨
    (parameters.getBool "Parallelize" = .ok false ∧ call.adaptor? = some ⟨1⟩) := by
  cases hb : parameters.getBool "Parallelize" with
  | error e =>
    rw [applyFilter_of_lookup_error _ _ _ hb] at hmem
    simp at hmem
    subst hmem
    simp [Event.isEngineCall, Event.mode?] at hcall
  | ok b =>
    rw [applyFilter_of_parallelize _ _ _ hb] at hmem
    rcases runMode_cases action parameters ⟨if b then 4 else 1⟩
      (.newEmbreeAdaptor 1 :: (if b then [.newEmbreeAdaptor 4] else [])) with
      ⟨_, ht⟩ | ⟨_, c, _, hc, ht⟩
    · rw [ht] at hmem
      rw [not_engine_of_mem_constructions b call hmem] at hcall
      cases hcall
    · rw [ht] at hmem
      rcases List.mem_append.1 hmem with hpre | hrest
      · rw [not_engine_of_mem_constructions b call hpre] at hcall
        cases hcall
      · rcases List.mem_cons.1 hrest with rfl | htail
        · cases b <;> simp [hc]
        · rw [not_engine_of_mem_tail action call htail] at hcall
          cases hcall

/-- C3 at the default list of the ambient occlusion filter ("Parallelize" is
true): the engine call is executed on the adaptor with 4 workers. -/
theorem applyFilter_worker_count_witness :
    Event.computeAmbientOcclusion ⟨4⟩ 64 ∈
      (applyFilter FP_AMBIENT_OCCLUSION (initParameterList FP_AMBIENT_OCCLUSION)).trace ∧
    (Event.computeAmbientOcclusion ⟨4⟩ 64).isEngineCall = true ∧
    ((RichParameterList.getBool (initParameterList FP_AMBIENT_OCCLUSION) "Parallelize"
        = .ok true ∧ (Event.computeAmbientOcclusion ⟨4⟩ 64).adaptor? = some ⟨4⟩) ∨
      (RichParameterList.getBool (initParameterList FP_AMBIENT_OCCLUSION) "Parallelize"
        = .ok false ∧ (Event.computeAmbientOcclusion ⟨4⟩ 64).adaptor? = some ⟨1⟩)) :=
  ⟨by decide, by decide,
    applyFilter_worker_count FP_AMBIENT_OCCLUSION (initParameterList FP_AMBIENT_OCCLUSION)
      (.computeAmbientOcclusion ⟨4⟩ 64) (by decide) (by decide)⟩

/-- C4, counterexample: the normal analysis filter, run on its default list,
returns normally after the engine call alone: neither the propagation to the
vertices nor the colour mapping is performed. -/
theorem applyFilter_analyze_normals_skips_propagation :
    applyFilter FP_ANALYZE_NORMALS (initParameterList FP_ANALYZE_NORMALS) =
      ⟨[.newEmbreeAdaptor 1, .newEmbreeAdaptor 4, .computeNormalAnalysis ⟨4⟩ 64], .ok ()⟩ ∧
    Event.vertexFromFace ∉
      (applyFilter FP_ANALYZE_NORMALS (initParameterList FP_ANALYZE_NORMALS)).trace ∧
    Event.perVertexQualityGray ∉
      (applyFilter FP_ANALYZE_NORMALS (initParameterList FP_ANALYZE_NORMALS)).trace := by
  decide

/-- C4, amended: an invocation that returns normally has written to the mesh
by the engine call of its mode, then `VertexFromFace`, then
`PerVertexQualityGray`, in this order and nothing else, in the four modes
obscurance, ambient occlusion, SDF and visible faces; in the normal analysis
mode it has written to the mesh by the engine call only. -/
theorem applyFilter_call_order (action : ActionIDType) (parameters : RichParameterList)
    (hok : (applyFilter action parameters).result = .ok ()) :
    ∃ call, call.mode? = some action ∧
      (applyFilter action parameters).trace.filter Event.writesMesh =
        call :: (if action = FP_ANALYZE_NORMALS then []
          else [.vertexFromFace, .perVertexQualityGray]) := by
  cases hb : parameters.getBool "Parallelize" with
  | error e => rw [applyFilter_of_lookup_error _ _ _ hb] at hok; cases hok
  | ok b =>
    rw [applyFilter_of_parallelize _ _ _ hb] at hok ⊢
    rcases runMode_cases action parameters ⟨if b then 4 else 1⟩
      (.newEmbreeAdaptor 1 :: (if b then [.newEmbreeAdaptor 4] else [])) with
      ⟨hne, _⟩ | ⟨_, c, hm, _, ht⟩
    · exact absurd hok hne
    · refine ⟨c, hm, ?_⟩
      have hw : c.writesMesh = true := by
        cases c <;> simp [Event.mode?] at hm <;> simp [Event.writesMesh, Event.isEngineCall, Event.mode?]
      rw [ht, List.filter_append, filter_writes_constructions, List.filter_cons, hw,
        filter_writes_tail]
      rfl

/-- C4, the amended claim at the default list of the obscurance filter. -/
theorem applyFilter_call_order_witness :
    (applyFilter FP_OBSCURANCE (initParameterList FP_OBSCURANCE)).result = .ok () ∧
    ∃ call, call.mode? = some FP_OBSCURANCE ∧
      (applyFilter FP_OBSCURANCE (initParameterList FP_OBSCURANCE)).trace.filter
          Event.writesMesh =
        call :: (if FP_OBSCURANCE = FP_ANALYZE_NORMALS then []
          else [.vertexFromFace, .perVertexQualityGray]) :=
  ⟨by decide,
    applyFilter_call_order FP_OBSCURANCE (initParameterList FP_OBSCURANCE) (by decide)⟩

/-- C5, counterexample: with "Parallelize" true (the default) the adaptor is
constructed twice in one invocation, first with 1 worker and then with 4. -/
theorem applyFilter_parallel_constructs_twice :
    RichParameterList.getBool (initParameterList FP_AMBIENT_OCCLUSION) "Parallelize"
      = .ok true ∧
    (applyFilter FP_AMBIENT_OCCLUSION (initParameterList FP_AMBIENT_OCCLUSION)).trace.filter
        Event.isConstruction =
      [.newEmbreeAdaptor 1, .newEmbreeAdaptor 4] := by
  decide

/-- C5, amended: every invocation constructs the adaptor with 1 worker first;
when "Parallelize" is true it constructs a second adaptor, with 4 workers, and
it constructs none when "Parallelize" is false; these constructions are the
first calls of the invocation, so they all precede the engine call, and no
adaptor is constructed after them. -/
theorem applyFilter_constructions (action : ActionIDType) (parameters : RichParameterList) :
    ∃ rest, (applyFilter action parameters).trace =
        .newEmbreeAdaptor 1 ::
          ((if parameters.getBool "Parallelize" = .ok true then [.newEmbreeAdaptor 4] else [])
            ++ rest) ∧
      rest.any Event.isConstruction = false := by
  cases hb : parameters.getBool "Parallelize" with
  | error e => exact ⟨[], by simp [applyFilter_of_lookup_error _ _ _ hb]⟩
  | ok b =>
    rw [applyFilter_of_parallelize _ _ _ hb]
    rcases runMode_cases action parameters ⟨if b then 4 else 1⟩
      (.newEmbreeAdaptor 1 :: (if b then [.newEmbreeAdaptor 4] else [])) with
      ⟨_, ht⟩ | ⟨_, c, hm, _, ht⟩
    · exact ⟨[], by rw [ht]; cases b <;> simp⟩
    · have hc : c.isConstruction = false := by
        cases c <;> simp [Event.mode?] at hm <;> rfl
      refine ⟨c :: (if action = FP_ANALYZE_NORMALS then []
          else [.vertexFromFace, .perVertexQualityGray]), ?_, ?_⟩
      · rw [ht]; cases b <;> simp
      · rw [List.any_cons, hc, any_construction_tail]
        rfl

/-- C6, the failing input: in the visible faces mode the engine call is given
the direction only.  Whatever the value of "Rays" in the list, the invocation is
the same, and the engine call `selectVisibleFaces` carries no ray count. -/
theorem applyFilter_select_visible_faces_ignores_rays (rays : Int) :
    applyFilter FP_SELECT_VISIBLE_FACES
        [RichInt "Rays" rays "Number of rays" "",
         RichPosition "dir" ⟨.fin 1, .fin 0, .fin 0⟩ "Direction" "",
         RichBool "Parallelize" false "Parallelize" ""] =
      ⟨[.newEmbreeAdaptor 1, .selectVisibleFaces ⟨1⟩ ⟨.fin 1, .fin 0, .fin 0⟩,
        .vertexFromFace, .perVertexQualityGray], .ok ()⟩ ∧
    (Event.selectVisibleFaces ⟨1⟩ ⟨.fin 1, .fin 0, .fin 0⟩).nRay? = none := by
  constructor
  · rfl
  · rfl

end FilterEmbreePlugin

/-! ## Theorems about filter_openvdb -/

namespace FilterOpenVDBPlugin

open ActionIDType

/-- On finite scalars the comparison of the model is the order of the numbers. -/
theorem le_fin_iff (a b : Rat) : Scalarm.le (.fin a) (.fin b) = true ↔ a ≤ b := by
  simp [Scalarm.le]

/-- C7: `remesh` throws "Voxel size must be a number greater than 0." exactly
when `voxelSize <= epsilon`, whatever the isovalue, the adaptivity and the kind
of conversion, and it returns `true` otherwise; when it throws it has made no
call at all (no progress callback, no cleaning of the input mesh) and the
document is the one it was given (no mesh added). -/
theorem remesh_voxel_size_check (epsilon : Scalarm) (md : MeshDocument)
    (voxelSize isovalue adaptivity : Scalarm) (isLevelSet : Bool) :
    ((remesh epsilon md voxelSize isovalue adaptivity isLevelSet).result =
        .error (.message "Voxel size must be a number greater than 0.") ↔
      voxelSize.le epsilon = true) ∧
    ((remesh epsilon md voxelSize isovalue adaptivity isLevelSet).result = .ok true ↔
      voxelSize.le epsilon = false) ∧
    (voxelSize.le epsilon = true →
      (remesh epsilon md voxelSize isovalue adaptivity isLevelSet).trace = [] ∧
      (remesh epsilon md voxelSize isovalue adaptivity isLevelSet).md = md) := by
  cases h : voxelSize.le epsilon <;> simp [remesh, h]

/-- C7 at the voxel size 0 and the epsilon 2^-23 of single precision. -/
theorem remesh_voxel_size_check_witness :
    Scalarm.le (.fin 0) (.fin (mkRat 1 8388608)) = true ∧
    (remesh (.fin (mkRat 1 8388608)) ⟨[⟨"mesh"⟩], 0⟩ (.fin 0) (.fin 0) (.fin 0) false).trace
      = [] ∧
    (remesh (.fin (mkRat 1 8388608)) ⟨[⟨"mesh"⟩], 0⟩ (.fin 0) (.fin 0) (.fin 0) false).md
      = ⟨[⟨"mesh"⟩], 0⟩ :=
  ⟨by decide,
    (remesh_voxel_size_check (.fin (mkRat 1 8388608)) ⟨[⟨"mesh"⟩], 0⟩ (.fin 0) (.fin 0)
      (.fin 0) false).2.2 (by decide)⟩

/-- C8, the failing input: for `FP_OPENVDB_VOLUME` the section of the switch has
no `break`, so after adding "voxelSize" and "isovalue" the run falls through
into the default branch and reaches its `assert(0)`; for `FP_OPENVDB_LEVELSET`
the run adds "voxelSize", "isovalue", "adaptivity" and does not reach it. -/
theorem initParameterList_volume_reaches_assert (fdiv : Scalarm → Scalarm → Scalarm)
    (diag : Scalarm) :
    (initParameterListRun FP_OPENVDB_VOLUME fdiv diag).assertReached = true ∧
    (initParameterList FP_OPENVDB_VOLUME fdiv diag).names = ["voxelSize", "isovalue"] ∧
    (initParameterListRun FP_OPENVDB_LEVELSET fdiv diag).assertReached = false ∧
    (initParameterList FP_OPENVDB_LEVELSET fdiv diag).names
      = ["voxelSize", "isovalue", "adaptivity"] := by
  refine ⟨rfl, rfl, rfl, rfl⟩

/-- The calls of the adapter and the document in a run of `remesh` that passes
the voxel size check, in order. -/
theorem remesh_adapter_calls (epsilon : Scalarm) (md : MeshDocument)
    (voxelSize isovalue adaptivity : Scalarm) (isLevelSet : Bool)
    (h : voxelSize.le epsilon = false) :
    (remesh epsilon md voxelSize isovalue adaptivity isLevelSet).trace.filter
        Event.isAdapterOrDocumentCall =
      [.setVoxelSize voxelSize, .setIsovalue isovalue, .setAdaptivity adaptivity,
       .setMesh md.currentMesh,
       (if isLevelSet then .meshToLevelSet else .meshToVolume),
       .addNewMesh "" "Offset mesh" true, .volumeToMesh md.meshList.length] := by
  cases isLevelSet <;> simp [remesh, h, List.filter, Event.isAdapterOrDocumentCall,
    MeshDocument.addNewMesh]

/-- C9: for `FP_OPENVDB_VOLUME` the adapter is set up with the voxel size and
the isovalue of the list and the adaptivity 0, and converts with `meshToVolume`;
for `FP_OPENVDB_LEVELSET` it is set up with the voxel size, the isovalue and the
adaptivity of the list, and converts with `meshToLevelSet`.  In both cases the
run returns normally, the conversion is followed by the addition of one mesh
to the document and then by `volumeToMesh` into that new mesh, the other
conversion is not called, and the document ends with exactly the one new mesh
"Offset mesh" after the meshes it had. -/
theorem applyFilter_dispatch (epsilon : Scalarm) (parameters : RichParameterList)
    (md : MeshDocument) (voxelSize isovalue : Scalarm)
    (hv : parameters.getAbsPerc "voxelSize" = .ok voxelSize)
    (hi : parameters.getAbsPerc "isovalue" = .ok isovalue)
    (hgt : voxelSize.le epsilon = false) :
    ((applyFilter epsilon FP_OPENVDB_VOLUME parameters md).result = .ok () ∧
      (applyFilter epsilon FP_OPENVDB_VOLUME parameters md).trace.filter
          Event.isAdapterOrDocumentCall =
        [.setVoxelSize voxelSize, .setIsovalue isovalue, .setAdaptivity (.fin 0),
         .setMesh md.currentMesh, .meshToVolume,
         .addNewMesh "" "Offset mesh" true, .volumeToMesh md.meshList.length] ∧
      (applyFilter epsilon FP_OPENVDB_VOLUME parameters md).md.meshList =
        md.meshList ++ [⟨"Offset mesh"⟩]) ∧
    (∀ adaptivity, parameters.getAbsPerc "adaptivity" = .ok adaptivity →
      (applyFilter epsilon FP_OPENVDB_LEVELSET parameters md).result = .ok () ∧
      (applyFilter epsilon FP_OPENVDB_LEVELSET parameters md).trace.filter
          Event.isAdapterOrDocumentCall =
        [.setVoxelSize voxelSize, .setIsovalue isovalue, .setAdaptivity adaptivity,
         .setMesh md.currentMesh, .meshToLevelSet,
         .addNewMesh "" "Offset mesh" true, .volumeToMesh md.meshList.length] ∧
      (applyFilter epsilon FP_OPENVDB_LEVELSET parameters md).md.meshList =
        md.meshList ++ [⟨"Offset mesh"⟩]) := by
  constructor
  · have ht := remesh_adapter_calls epsilon md voxelSize isovalue (.fin 0) false hgt
    simp only [applyFilter, hv, hi]
    refine ⟨?_, ?_, ?_⟩
    · simp [remesh, hgt, Except.map]
    · simpa using ht
    · simp [remesh, hgt, MeshDocument.addNewMesh]
  · intro adaptivity ha
    have ht := remesh_adapter_calls epsilon md voxelSize isovalue adaptivity true hgt
    simp only [applyFilter, hv, hi, ha]
    refine ⟨?_, ?_, ?_⟩
    · simp [remesh, hgt, Except.map]
    · simpa using ht
    · simp [remesh, hgt, MeshDocument.addNewMesh]

/-- C9 at the default list of the level set filter for a mesh of diagonal 100
(voxel size 1, isovalue 0, adaptivity 0) and the epsilon 2^-23 of single
precision: both filters return normally and leave the document with the one
new mesh after the mesh it had.  The one quotient the list takes is
`100.0f/100.0f`, which is 1 without rounding, so the division is given by that
value. -/
theorem applyFilter_dispatch_witness :
    RichParameterList.getAbsPerc
      (initParameterList FP_OPENVDB_LEVELSET (fun _ _ => .fin 1) (.fin 100)) "voxelSize" = .ok (.fin 1) ∧
    RichParameterList.getAbsPerc
      (initParameterList FP_OPENVDB_LEVELSET (fun _ _ => .fin 1) (.fin 100)) "isovalue" = .ok (.fin 0) ∧
    RichParameterList.getAbsPerc
      (initParameterList FP_OPENVDB_LEVELSET (fun _ _ => .fin 1) (.fin 100)) "adaptivity" = .ok (.fin 0) ∧
    Scalarm.le (.fin 1) (.fin (mkRat 1 8388608)) = false ∧
    (applyFilter (.fin (mkRat 1 8388608)) FP_OPENVDB_VOLUME
        (initParameterList FP_OPENVDB_LEVELSET (fun _ _ => .fin 1) (.fin 100))
        ⟨[⟨"mesh"⟩], 0⟩).md.meshList =
      [⟨"mesh"⟩] ++ [⟨"Offset mesh"⟩] ∧
    (applyFilter (.fin (mkRat 1 8388608)) FP_OPENVDB_LEVELSET
        (initParameterList FP_OPENVDB_LEVELSET (fun _ _ => .fin 1) (.fin 100))
        ⟨[⟨"mesh"⟩], 0⟩).md.meshList =
      [⟨"mesh"⟩] ++ [⟨"Offset mesh"⟩] :=
  ⟨by decide, by decide, by decide, by decide,
    (applyFilter_dispatch (.fin (mkRat 1 8388608))
      (initParameterList FP_OPENVDB_LEVELSET (fun _ _ => .fin 1) (.fin 100))
      ⟨[⟨"mesh"⟩], 0⟩ (.fin 1) (.fin 0)
      (by decide) (by decide) (by decide)).1.2.2,
    ((applyFilter_dispatch (.fin (mkRat 1 8388608))
      (initParameterList FP_OPENVDB_LEVELSET (fun _ _ => .fin 1) (.fin 100))
      ⟨[⟨"mesh"⟩], 0⟩ (.fin 1) (.fin 0)
      (by decide) (by decide) (by decide)).2 (.fin 0) (by decide)).2.2⟩

end FilterOpenVDBPlugin

/-! ## Theorems about the analysis engine -/

namespace EmbreeEngine

open FilterEmbreePlugin

theorem foldl_update_apply {α : Type} (f : Nat → α) (l : List Nat) (field : Nat → α)
    (i : Nat) :
    (l.foldl (fun out j => Function.update out j (f j)) field) i =
      if i ∈ l then f i else field i := by
  induction l generalizing field with
  | nil => simp
  | cons j l ih =>
    rw [List.foldl_cons, ih]
    by_cases hil : i ∈ l
    · simp [hil]
    · by_cases hij : i = j
      · subst hij; simp [hil]
      · simp [hil, hij, Function.update_noteq hij]

/-- A worker writes the faces of its range and leaves the other entries. -/
theorem runWorker_apply {α : Type} (f : Nat → α) (range : Nat × Nat) (field : Nat → α)
    (i : Nat) :
    runWorker f range field i = if range.1 ≤ i ∧ i < range.2 then f i else field i := by
  unfold runWorker
  rw [foldl_update_apply]
  have : i ∈ List.range' range.1 (range.2 - range.1) ↔ range.1 ≤ i ∧ i < range.2 := by
    rw [List.mem_range'_1]; omega
  simp only [this]

theorem foldl_workers_apply {α : Type} (f : Nat → α) (rng : Nat → Nat × Nat) (ks : List Nat)
    (field : Nat → α) (i : Nat) :
    (ks.foldl (fun out k => runWorker f (rng k) out) field) i =
      if ∃ k ∈ ks, (rng k).1 ≤ i ∧ i < (rng k).2 then f i else field i := by
  induction ks generalizing field with
  | nil => simp
  | cons k ks ih =>
    rw [List.foldl_cons, ih, runWorker_apply]
    by_cases h1 : ∃ k ∈ ks, (rng k).1 ≤ i ∧ i < (rng k).2
    · have : ∃ j ∈ k :: ks, (rng j).1 ≤ i ∧ i < (rng j).2 := by
        obtain ⟨j, hj, h⟩ := h1
        exact ⟨j, List.mem_cons_of_mem _ hj, h⟩
      simp [h1, this]
    · by_cases h2 : (rng k).1 ≤ i ∧ i < (rng k).2
      · have : ∃ j ∈ k :: ks, (rng j).1 ≤ i ∧ i < (rng j).2 :=
          ⟨k, List.mem_cons_self _ _, h2⟩
        rw [if_neg h1, if_pos h2, if_pos this]
      · have : ¬ ∃ j ∈ k :: ks, (rng j).1 ≤ i ∧ i < (rng j).2 := by
          rintro ⟨j, hj, h⟩
          rcases List.mem_cons.1 hj with rfl | hj
          · exact h2 h
          · exact h1 ⟨j, hj, h⟩
        rw [if_neg h1, if_neg h2, if_neg this]

/-- With at least one worker, the ranges of the workers cover exactly the face
indices. -/
theorem workerRange_cover (faceCount workerCount i : Nat) (hw : 0 < workerCount) :
    (∃ k ∈ List.range workerCount, (workerRange faceCount workerCount k).1 ≤ i ∧
      i < (workerRange faceCount workerCount k).2) ↔ i < faceCount := by
  constructor
  · rintro ⟨k, _, _, h⟩
    simp only [workerRange] at h
    omega
  · intro hi
    have hc : 0 < chunkSize faceCount workerCount := by
      unfold chunkSize
      apply Nat.div_pos <;> omega
    have hn : faceCount ≤ workerCount * chunkSize faceCount workerCount := by
      unfold chunkSize
      have := Nat.div_add_mod (faceCount + workerCount - 1) workerCount
      have := Nat.mod_lt (faceCount + workerCount - 1) hw
      omega
    have h1 := Nat.div_add_mod i (chunkSize faceCount workerCount)
    have h2 := Nat.mod_lt i hc
    refine ⟨i / chunkSize faceCount workerCount, ?_, ?_, ?_⟩
    · rw [List.mem_range, Nat.div_lt_iff_lt_mul hc]
      omega
    · simp only [workerRange]
      have := Nat.div_mul_le_self i (chunkSize faceCount workerCount)
      omega
    · simp only [workerRange]
      have h3 : (i / chunkSize faceCount workerCount + 1) * chunkSize faceCount workerCount =
          chunkSize faceCount workerCount * (i / chunkSize faceCount workerCount) +
            chunkSize faceCount workerCount := by ring
      rw [h3]
      omega

/-- Partitioning invariance: with any positive worker count the dispatcher
leaves, at every face index, the value of the per-face function. -/
theorem run_eq {α : Type} (faceCount workerCount : Nat) (hw : 0 < workerCount)
    (f : Nat → α) (field : Nat → α) :
    run faceCount workerCount f field = fun i => if i < faceCount then f i else field i := by
  funext i
  unfold run
  rw [foldl_workers_apply f (workerRange faceCount workerCount)]
  simp only [workerRange_cover faceCount workerCount i hw]

/-- The effect of a mode on the quality fields does not depend on whether its
adaptor has 1 or 4 workers, nor on the adaptors constructed before. -/
theorem executeAll_runMode (perFaceFn : Analysis → Nat → Rat) (m : Mesh)
    (action : ActionIDType) (serial parallel : RichParameterList)
    (hrays : serial.getInt "Rays" = parallel.getInt "Rays")
    (htau : serial.getFloat "TAU" = parallel.getFloat "TAU")
    (hdegree : serial.getFloat "degree" = parallel.getFloat "degree")
    (hdir : serial.getPoint3m "dir" = parallel.getPoint3m "dir") :
    executeAll perFaceFn (runMode action serial ⟨1⟩ [.newEmbreeAdaptor 1]).trace m =
    executeAll perFaceFn
      (runMode action parallel ⟨4⟩ [.newEmbreeAdaptor 1, .newEmbreeAdaptor 4]).trace m := by
  have h1 : ∀ (f : Nat → Rat) (field : Nat → Rat),
      run m.faces.length 1 f field = run m.faces.length 4 f field := by
    intro f field
    rw [run_eq _ 1 (by decide), run_eq _ 4 (by decide)]
  cases action <;> simp only [runMode, hrays, htau, hdegree, hdir]
  · cases parallel.getInt "Rays" <;> cases parallel.getFloat "TAU" <;>
      simp [executeAll, execute, request?, h1]
  · cases parallel.getInt "Rays" <;> simp [executeAll, execute, request?, h1]
  · cases parallel.getInt "Rays" <;> cases parallel.getFloat "degree" <;>
      simp [executeAll, execute, request?, h1]
  · cases parallel.getPoint3m "dir" <;> simp [executeAll, execute, request?, h1]
  · cases parallel.getInt "Rays" <;> simp [executeAll, execute, request?, h1]
  · simp [executeAll, execute, request?]

/-- C10: for a fixed mesh, mode and mode parameters, the invocation with
"Parallelize" false (1 worker) and the invocation with "Parallelize" true (4
workers) leave the same per-face and the same per-vertex quality field. -/
theorem analysis_independent_of_worker_count (perFaceFn : Analysis → Nat → Rat) (m : Mesh)
    (action : ActionIDType) (serial parallel : RichParameterList)
    (hserial : serial.getBool "Parallelize" = .ok false)
    (hparallel : parallel.getBool "Parallelize" = .ok true)
    (hrays : serial.getInt "Rays" = parallel.getInt "Rays")
    (htau : serial.getFloat "TAU" = parallel.getFloat "TAU")
    (hdegree : serial.getFloat "degree" = parallel.getFloat "degree")
    (hdir : serial.getPoint3m "dir" = parallel.getPoint3m "dir") :
    (executeAll perFaceFn (applyFilter action serial).trace m).faceQuality =
      (executeAll perFaceFn (applyFilter action parallel).trace m).faceQuality ∧
    (executeAll perFaceFn (applyFilter action serial).trace m).vertexQuality =
      (executeAll perFaceFn (applyFilter action parallel).trace m).vertexQuality := by
  have h := executeAll_runMode perFaceFn m action serial parallel hrays htau hdegree hdir
  rw [applyFilter_of_parallelize _ _ _ hserial, applyFilter_of_parallelize _ _ _ hparallel]
  simp only [Bool.false_eq_true, if_false, if_true]
  rw [h]
  exact ⟨rfl, rfl⟩

/-- C10 at the ambient occlusion filter on a mesh of two triangles, with the
default list ("Parallelize" true) and the same list with "Parallelize" false. -/
theorem analysis_independent_of_worker_count_witness :
    RichParameterList.getBool [raysParam, RichBool "Parallelize" false "Parallelize" ""]
      "Parallelize" = .ok false ∧
    RichParameterList.getBool (initParameterList .FP_AMBIENT_OCCLUSION) "Parallelize"
      = .ok true ∧
    (executeAll (fun _ i => (i : Rat))
        (applyFilter .FP_AMBIENT_OCCLUSION
          [raysParam, RichBool "Parallelize" false "Parallelize" ""]).trace
        ⟨[(0, 1, 2), (0, 2, 3)], fun _ => false, fun _ => 0, fun _ => 0⟩).faceQuality =
      (executeAll (fun _ i => (i : Rat))
        (applyFilter .FP_AMBIENT_OCCLUSION (initParameterList .FP_AMBIENT_OCCLUSION)).trace
        ⟨[(0, 1, 2), (0, 2, 3)], fun _ => false, fun _ => 0, fun _ => 0⟩).faceQuality ∧
    (executeAll (fun _ i => (i : Rat))
        (applyFilter .FP_AMBIENT_OCCLUSION
          [raysParam, RichBool "Parallelize" false "Parallelize" ""]).trace
        ⟨[(0, 1, 2), (0, 2, 3)], fun _ => false, fun _ => 0, fun _ => 0⟩).vertexQuality =
      (executeAll (fun _ i => (i : Rat))
        (applyFilter .FP_AMBIENT_OCCLUSION (initParameterList .FP_AMBIENT_OCCLUSION)).trace
        ⟨[(0, 1, 2), (0, 2, 3)], fun _ => false, fun _ => 0, fun _ => 0⟩).vertexQuality :=
  ⟨by decide, by decide,
    analysis_independent_of_worker_count (fun _ i => (i : Rat))
      ⟨[(0, 1, 2), (0, 2, 3)], fun _ => false, fun _ => 0, fun _ => 0⟩
      .FP_AMBIENT_OCCLUSION [raysParam, RichBool "Parallelize" false "Parallelize" ""]
      (initParameterList .FP_AMBIENT_OCCLUSION)
      (by decide) (by decide) (by decide) (by decide) (by decide) (by decide)⟩

end EmbreeEngine

/-! ## Theorems about progress reports and default parameters -/

namespace FilterEmbreePlugin

open ActionIDType

theorem any_progress_constructions (b : Bool) :
    (Event.newEmbreeAdaptor 1 :: (if b then [Event.newEmbreeAdaptor 4] else [])).any
      Event.isProgress = false := by
  cases b <;> rfl

theorem any_progress_tail (action : ActionIDType) :
    (if action = FP_ANALYZE_NORMALS then []
      else [Event.vertexFromFace, Event.perVertexQualityGray]).any Event.isProgress
      = false := by
  split <;> rfl

/-- C11, counterexample: the obscurance filter, run on its default list,
returns normally without a single call of the progress callback. -/
theorem applyFilter_obscurance_reports_no_progress :
    (applyFilter FP_OBSCURANCE (initParameterList FP_OBSCURANCE)).result = .ok () ∧
    (applyFilter FP_OBSCURANCE (initParameterList FP_OBSCURANCE)).trace.filterMap
      Event.progress? = [] := by
  decide

/-- C11, amended: no invocation of `applyFilter` calls the progress callback
`cb`, for any filter id and any parameter list, whether it returns normally or
ends in an exception: progress is reported at no milestone. -/
theorem applyFilter_never_reports_progress (action : ActionIDType)
    (parameters : RichParameterList) :
    (applyFilter action parameters).trace.any Event.isProgress = false := by
  cases hb : parameters.getBool "Parallelize" with
  | error e => rw [applyFilter_of_lookup_error _ _ _ hb]; rfl
  | ok b =>
    rw [applyFilter_of_parallelize _ _ _ hb]
    rcases runMode_cases action parameters ⟨if b then 4 else 1⟩
      (.newEmbreeAdaptor 1 :: (if b then [.newEmbreeAdaptor 4] else [])) with
      ⟨_, ht⟩ | ⟨_, c, hm, _, ht⟩
    · rw [ht]; exact any_progress_constructions b
    · have hc : c.isProgress = false := by
        cases c <;> simp [Event.mode?] at hm <;> rfl
      rw [ht, List.any_append, any_progress_constructions, List.any_cons, hc,
        any_progress_tail]
      rfl

/-- The literal `0.1f` is a number strictly between 0 and π/2. -/
theorem lit0_1f_isConeAngle : Scalarm.lit0_1f.isConeAngle := by
  have hpi := Real.pi_gt_three
  simp only [Scalarm.lit0_1f, Scalarm.isConeAngle, Rat.mkRat_eq_div]
  push_cast
  constructor
  · norm_num
  · have h : (13421773 : ℝ) / 134217728 < 3 / 2 := by norm_num
    linarith

theorem lit0_1f_isPositive : Scalarm.lit0_1f.isPositive := by
  simp only [Scalarm.lit0_1f, Scalarm.isPositive, Rat.mkRat_eq_div]
  norm_num

/-- C12: the defaults `initParameterList` declares satisfy the configuration
constraints.  "Rays" is 64, a positive integer, for each of the five ids; "TAU"
is the literal 0.1f, a positive number; "degree" is the literal 0.1f, a number
in the open interval (0, π/2); "dir" is (1, 0, 0), a unit vector; and for none
of the five ids the list of defaults is a ConfigurationError. -/
theorem initParameterList_defaults_valid :
    (∀ action ∈ typeList,
      RichParameterList.getInt (initParameterList action) "Rays" = .ok 64) ∧
    (0 : Int) < 64 ∧
    RichParameterList.getFloat (initParameterList FP_OBSCURANCE) "TAU"
      = .ok Scalarm.lit0_1f ∧
    Scalarm.lit0_1f.isPositive ∧
    RichParameterList.getFloat (initParameterList FP_SDF) "degree" = .ok Scalarm.lit0_1f ∧
    Scalarm.lit0_1f.isConeAngle ∧
    RichParameterList.getPoint3m (initParameterList FP_SELECT_VISIBLE_FACES) "dir"
      = .ok ⟨.fin 1, .fin 0, .fin 0⟩ ∧
    Point3m.isUnit ⟨.fin 1, .fin 0, .fin 0⟩ ∧
    (∀ action ∈ typeList, ¬ specConfigurationError action (initParameterList action)) := by
  have hrays : ∀ action ∈ typeList,
      RichParameterList.getInt (initParameterList action) "Rays" = .ok 64 := by decide
  have htau : RichParameterList.getFloat (initParameterList FP_OBSCURANCE) "TAU"
      = .ok Scalarm.lit0_1f := by decide
  have hdeg : RichParameterList.getFloat (initParameterList FP_SDF) "degree"
      = .ok Scalarm.lit0_1f := by decide
  refine ⟨hrays, by decide, htau, lit0_1f_isPositive, hdeg, lit0_1f_isConeAngle, by decide,
    by simp [Point3m.isUnit], ?_⟩
  intro action hmem
  rintro (⟨rays, hr, hle⟩ | ⟨rfl, tau, ht, hneg⟩ | ⟨rfl, degree, hd, hneg⟩ | ⟨b, _, hzero⟩)
  · rw [hrays action hmem] at hr
    cases hr
    exact absurd hle (by decide)
  · rw [htau] at ht
    cases ht
    exact hneg lit0_1f_isPositive
  · rw [hdeg] at hd
    cases hd
    exact hneg lit0_1f_isConeAngle
  · cases b <;> simp at hzero

end FilterEmbreePlugin

namespace FilterOpenVDBPlugin

/-- C13: in every run of `remesh` that passes the voxel size check, the
progress callback is called exactly five times, with (0, "Cleaning Mesh..."),
(10, "Loading Mesh..."), (30, "Converting Mesh to Volume..."),
(70, "Converting Volume to Mesh...") and (10, "Done."), in this order; every
percentage lies in 0..100, and the run returns `true`. -/
theorem remesh_progress_calls (epsilon : Scalarm) (md : MeshDocument)
    (voxelSize isovalue adaptivity : Scalarm) (isLevelSet : Bool)
    (h : voxelSize.le epsilon = false) :
    (remesh epsilon md voxelSize isovalue adaptivity isLevelSet).trace.filterMap
        Event.progress? =
      [(0, "Cleaning Mesh..."), (10, "Loading Mesh..."),
       (30, "Converting Mesh to Volume..."), (70, "Converting Volume to Mesh..."),
       (10, "Done.")] ∧
    ((remesh epsilon md voxelSize isovalue adaptivity isLevelSet).trace.filterMap
        Event.progress?).all (fun p => decide (0 ≤ p.1 ∧ p.1 ≤ 100)) = true ∧
    (remesh epsilon md voxelSize isovalue adaptivity isLevelSet).result = .ok true := by
  have ht : (remesh epsilon md voxelSize isovalue adaptivity isLevelSet).trace.filterMap
        Event.progress? =
      [(0, "Cleaning Mesh..."), (10, "Loading Mesh..."),
       (30, "Converting Mesh to Volume..."), (70, "Converting Volume to Mesh..."),
       (10, "Done.")] := by
    cases isLevelSet <;> simp [remesh, h, List.filterMap, Event.progress?]
  refine ⟨ht, ?_, ?_⟩
  · rw [ht]; decide
  · simp [remesh, h]

/-- C13 at the voxel size 1, the epsilon 2^-23 of single precision and the
level set conversion. -/
theorem remesh_progress_calls_witness :
    Scalarm.le (.fin 1) (.fin (mkRat 1 8388608)) = false ∧
    (remesh (.fin (mkRat 1 8388608)) ⟨[⟨"mesh"⟩], 0⟩ (.fin 1) (.fin 0) (.fin 0)
        true).trace.filterMap Event.progress? =
      [(0, "Cleaning Mesh..."), (10, "Loading Mesh..."),
       (30, "Converting Mesh to Volume..."), (70, "Converting Volume to Mesh..."),
       (10, "Done.")] ∧
    (remesh (.fin (mkRat 1 8388608)) ⟨[⟨"mesh"⟩], 0⟩ (.fin 1) (.fin 0) (.fin 0) true).result
      = .ok true :=
  ⟨by decide,
    (remesh_progress_calls (.fin (mkRat 1 8388608)) ⟨[⟨"mesh"⟩], 0⟩ (.fin 1) (.fin 0)
      (.fin 0) true (by decide)).1,
    (remesh_progress_calls (.fin (mkRat 1 8388608)) ⟨[⟨"mesh"⟩], 0⟩ (.fin 1) (.fin 0)
      (.fin 0) true (by decide)).2.2⟩

end FilterOpenVDBPlugin

end MeshLab
